import Mathlib

/-!
Verification of the knuu instance-lifecycle core (pkg/instance, file
src/pkg/k8s/k8s_service.go) against its natural-language specification.

The Go code is shallowly embedded: each method of `Instance` becomes a pure
Lean function; external collaborators (cluster client, image builder, the
BitTwister fault-injection sdk, the OS file system) are passed in as explicit
environment records of oracle results; the parent/sidecar pointer graph is
modelled as a heap (`World`) mapping instance ids to instance records.
Errors are an inductive type mirroring the Go error values, carrying the
same parameters (operation state, port, instance name, retry count).
-/

namespace Knuu

/-- Lifecycle states of an instance (type `InstanceState` of the source;
the state set is listed in the spec: None, Preparing, Committed, Started,
Stopped). -/
inductive InstanceState
  | None
  | Preparing
  | Committed
  | Started
  | Stopped
deriving DecidableEq, Repr

/-- Volume record (external `k8s.Volume`, constructed by `NewVolume`):
mount path, size and owner. -/
structure Volume where
  path : String
  size : String
  owner : Int
deriving DecidableEq, Repr

/-- File record (external `k8s.File`, constructed by `NewFile(dstPath, dest)`). -/
structure KFile where
  srcPath : String
  dest : String
deriving DecidableEq, Repr

/-- Probes are stored opaquely by the instance mutators (`*v1.Probe` in the
source); an abstract numeric token suffices for the descriptor model. -/
abbrev Probe := Nat

/-- RBAC policy rules are stored opaquely (`rbacv1.PolicyRule`). -/
abbrev PolicyRule := Nat

/-- Security settings of a container (struct `SecurityContext` of the source). -/
structure SecurityContext where
  privileged : Bool
  capabilitiesAdd : List String
deriving DecidableEq, Repr

/-- Observability sidecar configuration (struct `ObsyConfig` of the source). -/
structure ObsyConfig where
  otelCollectorVersion : String
  prometheusEndpointPort : Int
  prometheusEndpointJobName : String
  prometheusEndpointScrapeInterval : String
  jaegerGrpcPort : Int
  jaegerThriftCompactPort : Int
  jaegerThriftHttpPort : Int
  jaegerEndpoint : String
  otlpPort : Int
  otlpEndpoint : String
  otlpUsername : String
  otlpPassword : String
  prometheusExporterEndpoint : String
  prometheusRemoteWriteExporterEndpoint : String
deriving DecidableEq, Repr

/-- Default ObsyConfig as built by `New` in the source. -/
def defaultObsyConfig : ObsyConfig :=
  { otelCollectorVersion := "0.83.0"
    prometheusEndpointPort := 0
    prometheusEndpointJobName := ""
    prometheusEndpointScrapeInterval := ""
    jaegerGrpcPort := 0
    jaegerThriftCompactPort := 0
    jaegerThriftHttpPort := 0
    jaegerEndpoint := ""
    otlpPort := 0
    otlpEndpoint := ""
    otlpUsername := ""
    otlpPassword := ""
    prometheusExporterEndpoint := ""
    prometheusRemoteWriteExporterEndpoint := "" }

/-- Identity of an instance in the heap model; Go pointer identity becomes
id equality. -/
abbrev InstanceId := Nat

/-- The `Instance` struct of the source. Pointer-valued fields
(`parentInstance *Instance`, `sidecars []*Instance`) become instance ids;
the BitTwister config pointer is inlined as the `btEnabled` flag
(its other fields do not matter for the claims). -/
structure Instance where
  name : String
  k8sName : String
  imageName : String
  state : InstanceState
  portsTCP : List Int
  portsUDP : List Int
  command : List String
  args : List String
  env : List (String × String)
  builderEnv : List (String × String)
  builderFiles : List (String × String × String)
  volumes : List Volume
  memoryRequest : String
  memoryLimit : String
  cpuRequest : String
  policyRules : List PolicyRule
  livenessProbe : Option Probe
  readinessProbe : Option Probe
  startupProbe : Option Probe
  files : List KFile
  isSidecar : Bool
  parentInstance : Option InstanceId
  sidecars : List InstanceId
  fsGroup : Int
  obsyConfig : ObsyConfig
  securityContext : SecurityContext
  btEnabled : Bool
deriving DecidableEq, Repr

/-- The fresh instance assembled by `New` in the source (the generated
k8s name is a parameter; name generation is an external collaborator). -/
def defaultInstance (name k8sName : String) : Instance :=
  { name := name
    k8sName := k8sName
    imageName := ""
    state := .None
    portsTCP := []
    portsUDP := []
    command := []
    args := []
    env := []
    builderEnv := []
    builderFiles := []
    volumes := []
    memoryRequest := ""
    memoryLimit := ""
    cpuRequest := ""
    policyRules := []
    livenessProbe := none
    readinessProbe := none
    startupProbe := none
    files := []
    isSidecar := false
    parentInstance := none
    sidecars := []
    fsGroup := 0
    obsyConfig := defaultObsyConfig
    securityContext := { privileged := false, capabilitiesAdd := [] }
    btEnabled := false }

/-- Operation tags of the state-violation error values of the source
(`ErrSettingCommand`, `ErrAddingPortNotAllowed`, ...): each guarded method
has its own error variable, and each carries the current state via
`WithParams(i.state.String())`. -/
inductive Op
  | settingCommand
  | settingArgs
  | addingPort
  | settingEnv
  | addingVolume
  | addingFile
  | settingProbe
  | settingMemory
  | settingCPU
  | settingPrivileged
  | addingCapability
  | addingCapabilities
  | addingPolicyRule
  | addingSidecar
  | committing
  | randomPortForwarding
  | waitingForInstance
  | checkingIfInstanceRunning
  | stopping
  | starting
  | executingCommand
  | gettingFile
  | readingFile
  | settingBandwidthLimit
  | settingLatencyJitter
  | settingPacketLoss
deriving DecidableEq, Repr

/-- Tags of the error values of the source that carry an instance,
resource or file name via `WithParams` (mostly wrapped collaborator
failures). -/
inductive CollabOp
  | maximumVolumesExceeded
  | sidecarNotCommitted
  | sidecarCannotHaveSidecar
  | sidecarAlreadySidecar
  | addingOtelCollectorSidecar
  | addingNetworkSidecar
  | deployingResourcesForInstance
  | deployingResourcesForSidecars
  | deployingPodForInstance
  | destroyingPod
  | pushingImage
  | gettingPodFromReplicaSet
  | waitingForInstanceTimeout
  | checkingIfInstanceRunningFailed
  | waitingForInstanceRunning
  | clusterQueryFailed
  | stoppingBandwidthLimit
  | settingBandwidthLimitFailed
  | stoppingLatencyJitter
  | settingLatencyJitterFailed
  | stoppingPacketLoss
  | settingPacketLossFailed
  | executingCommandInInstance
  | executingCommandInSidecar
  | gettingFileFailed
  | readingFileFailed
  | readingFileFromInstance
deriving DecidableEq, Repr

/-- Error values of the source, with the parameters attached via
`WithParams`: `stateViolation` covers the per-operation state-gate errors
(operation + current state), `named`/`named2` the errors parameterised by
instance/resource/file names, and the rest are individual values. -/
inductive InstanceError
  | stateViolation (op : Op) (state : InstanceState)
  | obsyNotAllowed (operation : String) (state : InstanceState)
  | startingNotAllowedForSidecar (name : String) (state : InstanceState)
  | named (op : CollabOp) (name : String)
  | named2 (op : CollabOp) (a b : String)
  | invalidPort (port : Int)
  | portAlreadyRegistered (port : Int)
  | udpPortAlreadyRegistered (port : Int)
  | portNotRegistered (port : Int)
  | gettingFreePort (port : Int)
  | forwardingPort (retries : Nat)
  | fileArgsValidation
  | srcDoesNotExist (src : String)
  | creatingDirectory
  | failedToCreateDestFile (dst : String)
  | failedToOpenSrcFile (src : String)
  | failedToCopyFile (src dst : String)
  | fileIsNotSubFolderOfVolumes (dest : String)
  | srcDoesNotExistOrIsDirectory (src : String)
  | invalidFormat
  | failedToConvertToInt64
  | allFilesMustHaveSameGroup
  | enablingBitTwister
  | settingBandwidthLimitNotAllowedBitTwister
  | settingLatencyJitterNotAllowedBitTwister
  | settingPacketLossNotAllowedBitTwister
  | sidecarIsNil
  | sidecarCannotBeSameInstance
  | startingSidecarNotAllowed
  | gettingImageRegistry
  | generatingImageHash
deriving DecidableEq, Repr

/-- Modelled from the spec: `IsInState` (helper of the repository outside
src/) reports whether the instance's current state is one of the given
states; every guard in the source is written `if !i.IsInState(...)`. -/
def Instance.IsInState (i : Instance) (states : List InstanceState) : Bool :=
  states.contains i.state

/-- Modelled from the spec: `validatePort` (helper outside src/) is the
"bad port" validation of the error taxonomy; a TCP/UDP port must lie in
1..65535. -/
def validatePort (port : Int) : Except InstanceError Unit :=
  if port < 1 || port > 65535 then .error (.invalidPort port) else .ok ()

/-- Modelled from the spec: `isTCPPortRegistered` (helper outside src/)
checks membership of the port in the instance's TCP port set. -/
def Instance.isTCPPortRegistered (i : Instance) (port : Int) : Bool :=
  i.portsTCP.contains port

/-- Modelled from the spec: `isUDPPortRegistered` (helper outside src/). -/
def Instance.isUDPPortRegistered (i : Instance) (port : Int) : Bool :=
  i.portsUDP.contains port

/-- `SetCommand` of the source. -/
def Instance.SetCommand (i : Instance) (command : List String) :
    Except InstanceError Instance :=
  if !(i.IsInState [.Preparing, .Committed]) then
    .error (.stateViolation .settingCommand i.state)
  else .ok { i with command := command }

/-- `SetArgs` of the source. -/
def Instance.SetArgs (i : Instance) (args : List String) :
    Except InstanceError Instance :=
  if !(i.IsInState [.Preparing, .Committed]) then
    .error (.stateViolation .settingArgs i.state)
  else .ok { i with args := args }

/-- `AddPortTCP` of the source. -/
def Instance.AddPortTCP (i : Instance) (port : Int) :
    Except InstanceError Instance :=
  if !(i.IsInState [.Preparing, .Committed]) then
    .error (.stateViolation .addingPort i.state)
  else
    match validatePort port with
    | .error e => .error e
    | .ok _ =>
      if i.isTCPPortRegistered port then .error (.portAlreadyRegistered port)
      else .ok { i with portsTCP := i.portsTCP ++ [port] }

/-- `AddPortUDP` of the source. -/
def Instance.AddPortUDP (i : Instance) (port : Int) :
    Except InstanceError Instance :=
  if !(i.IsInState [.Preparing, .Committed]) then
    .error (.stateViolation .addingPort i.state)
  else
    match validatePort port with
    | .error e => .error e
    | .ok _ =>
      if i.isUDPPortRegistered port then .error (.udpPortAlreadyRegistered port)
      else .ok { i with portsUDP := i.portsUDP ++ [port] }

/-- Insert-or-replace on the association-list model of a Go string map. -/
def envUpsert (m : List (String × String)) (k v : String) :
    List (String × String) :=
  match m with
  | [] => [(k, v)]
  | (k0, v0) :: rest =>
    if k0 = k then (k, v) :: rest else (k0, v0) :: envUpsert rest k v

/-- `SetEnvironmentVariable` of the source: in Preparing the variable goes
to the image builder, in Committed into the instance's env map. -/
def Instance.SetEnvironmentVariable (i : Instance) (key value : String) :
    Except InstanceError Instance :=
  if !(i.IsInState [.Preparing, .Committed]) then
    .error (.stateViolation .settingEnv i.state)
  else if i.state = .Preparing then
    .ok { i with builderEnv := envUpsert i.builderEnv key value }
  else .ok { i with env := envUpsert i.env key value }

/-- `NewVolume` of the external cluster client: builds the volume value. -/
def NewVolume (path size : String) (owner : Int) : Volume :=
  { path := path, size := size, owner := owner }

/-- `AddVolumeWithOwner` of the source: state gate, then the
one-volume limit, then append. -/
def Instance.AddVolumeWithOwner (i : Instance) (path size : String)
    (owner : Int) : Except InstanceError Instance :=
  if !(i.IsInState [.Preparing, .Committed]) then
    .error (.stateViolation .addingVolume i.state)
  else if i.volumes.length > 0 then
    .error (.named .maximumVolumesExceeded i.name)
  else .ok { i with volumes := i.volumes ++ [NewVolume path size owner] }

/-- `AddVolume` of the source. Note the faithful quirk: it checks only the
one-volume limit itself, calls `AddVolumeWithOwner` and DISCARDS its
return value, then returns nil — so a state violation inside
`AddVolumeWithOwner` is swallowed and `AddVolume` reports success while
mutating nothing. -/
def Instance.AddVolume (i : Instance) (path size : String) :
    Except InstanceError Instance :=
  if i.volumes.length > 0 then
    .error (.named .maximumVolumesExceeded i.name)
  else
    match i.AddVolumeWithOwner path size 0 with
    | .ok i2 => .ok i2
    | .error _ => .ok i

/-- `SetMemory` of the source. -/
def Instance.SetMemory (i : Instance) (request limit : String) :
    Except InstanceError Instance :=
  if !(i.IsInState [.Preparing, .Committed]) then
    .error (.stateViolation .settingMemory i.state)
  else .ok { i with memoryRequest := request, memoryLimit := limit }

/-- `SetCPU` of the source. -/
def Instance.SetCPU (i : Instance) (request : String) :
    Except InstanceError Instance :=
  if !(i.IsInState [.Preparing, .Committed]) then
    .error (.stateViolation .settingCPU i.state)
  else .ok { i with cpuRequest := request }

/-- `AddPolicyRule` of the source. -/
def Instance.AddPolicyRule (i : Instance) (rule : PolicyRule) :
    Except InstanceError Instance :=
  if !(i.IsInState [.Preparing, .Committed]) then
    .error (.stateViolation .addingPolicyRule i.state)
  else .ok { i with policyRules := i.policyRules ++ [rule] }

/-- `checkStateForProbe` of the source. -/
def Instance.checkStateForProbe (i : Instance) : Except InstanceError Unit :=
  if !(i.IsInState [.Preparing, .Committed]) then
    .error (.stateViolation .settingProbe i.state)
  else .ok ()

/-- `SetLivenessProbe` of the source. -/
def Instance.SetLivenessProbe (i : Instance) (p : Probe) :
    Except InstanceError Instance :=
  match i.checkStateForProbe with
  | .error e => .error e
  | .ok _ => .ok { i with livenessProbe := some p }

/-- `SetReadinessProbe` of the source. -/
def Instance.SetReadinessProbe (i : Instance) (p : Probe) :
    Except InstanceError Instance :=
  match i.checkStateForProbe with
  | .error e => .error e
  | .ok _ => .ok { i with readinessProbe := some p }

/-- `SetStartupProbe` of the source. -/
def Instance.SetStartupProbe (i : Instance) (p : Probe) :
    Except InstanceError Instance :=
  match i.checkStateForProbe with
  | .error e => .error e
  | .ok _ => .ok { i with startupProbe := some p }

/-- `SetPrivileged` of the source. -/
def Instance.SetPrivileged (i : Instance) (privileged : Bool) :
    Except InstanceError Instance :=
  if !(i.IsInState [.Preparing, .Committed]) then
    .error (.stateViolation .settingPrivileged i.state)
  else .ok { i with securityContext :=
    { i.securityContext with privileged := privileged } }

/-- `AddCapability` of the source. -/
def Instance.AddCapability (i : Instance) (capability : String) :
    Except InstanceError Instance :=
  if !(i.IsInState [.Preparing, .Committed]) then
    .error (.stateViolation .addingCapability i.state)
  else .ok { i with securityContext :=
    { i.securityContext with
      capabilitiesAdd := i.securityContext.capabilitiesAdd ++ [capability] } }

/-- `AddCapabilities` of the source. -/
def Instance.AddCapabilities (i : Instance) (capabilities : List String) :
    Except InstanceError Instance :=
  if !(i.IsInState [.Preparing, .Committed]) then
    .error (.stateViolation .addingCapabilities i.state)
  else .ok { i with securityContext :=
    { i.securityContext with
      capabilitiesAdd := i.securityContext.capabilitiesAdd ++ capabilities } }

/-- Modelled from the spec: `validateStateForObsy` (helper outside src/)
gates every observability mutator on {Preparing, Committed} and names the
operation and the current state, matching the doc comments of all its
callers in the source. -/
def Instance.validateStateForObsy (i : Instance) (operation : String) :
    Except InstanceError Unit :=
  if !(i.IsInState [.Preparing, .Committed]) then
    .error (.obsyNotAllowed operation i.state)
  else .ok ()

/-- `SetOtelEndpoint` of the source (representative observability mutator). -/
def Instance.SetOtelEndpoint (i : Instance) (port : Int) :
    Except InstanceError Instance :=
  match i.validateStateForObsy "OpenTelemetry endpoint" with
  | .error e => .error e
  | .ok _ => .ok { i with obsyConfig := { i.obsyConfig with otlpPort := port } }

/-- `SetPrometheusEndpoint` of the source. -/
def Instance.SetPrometheusEndpoint (i : Instance) (port : Int)
    (jobName scrapeInterval : String) : Except InstanceError Instance :=
  match i.validateStateForObsy "Prometheus endpoint" with
  | .error e => .error e
  | .ok _ => .ok { i with obsyConfig :=
    { i.obsyConfig with
      prometheusEndpointPort := port
      prometheusEndpointJobName := jobName
      prometheusEndpointScrapeInterval := scrapeInterval } }

/-- `EnableBitTwister` of the source: rejected only while Started
(note: NOT the {Preparing, Committed} gate of the other mutators). -/
def Instance.EnableBitTwister (i : Instance) : Except InstanceError Instance :=
  if i.IsInState [.Started] then .error .enablingBitTwister
  else .ok { i with btEnabled := true }

/-- `DisableBitTwister` of the source: never fails. -/
def Instance.DisableBitTwister (i : Instance) : Except InstanceError Instance :=
  .ok { i with btEnabled := false }

/-- `checkStateForAddingFile` of the source. -/
def Instance.checkStateForAddingFile (i : Instance) :
    Except InstanceError Unit :=
  if !(i.IsInState [.Preparing, .Committed]) then
    .error (.stateViolation .addingFile i.state)
  else .ok ()

/-- Modelled from the spec: `getBuildDir` (helper outside src/) returns
the build-context directory of the instance. -/
def Instance.getBuildDir (i : Instance) : String :=
  "buildDir/" ++ i.k8sName

/-- Modelled from the spec: `validateFileArgs` (helper outside src/) is
the "missing required fields" validation of the error taxonomy applied to
the file arguments. -/
def validateFileArgs (src dest chown : String) : Except InstanceError Unit :=
  if src = "" || dest = "" || chown = "" then .error .fileArgsValidation
  else .ok ()

/-- Modelled from the spec: `isSubFolderOfVolumes` (helper outside src/)
checks that the destination lies under some declared volume path. -/
def Instance.isSubFolderOfVolumes (i : Instance) (dest : String) : Bool :=
  i.volumes.any (fun v => v.path.isPrefixOf dest)

/-- `NewFile` of the external cluster client. -/
def NewFile (srcPath dest : String) : KFile :=
  { srcPath := srcPath, dest := dest }

/-- Outcomes of the OS file-system calls made by `AddFile` (stat, mkdir,
create, open, copy), passed in as oracles. -/
structure FileEnv where
  srcExists : Bool
  srcIsDir : Bool
  mkdirOk : Bool
  createOk : Bool
  openOk : Bool
  copyOk : Bool
deriving DecidableEq, Repr

/-- `AddFile` of the source: state gate, argument validation, copy of the
source file into the build dir, then the state-dependent bookkeeping
(Preparing: file goes to the builder; Committed: volume sub-path check,
chown group parsing and the common-group invariant, then append). -/
def Instance.AddFile (i : Instance) (fenv : FileEnv)
    (src dest chown : String) : Except InstanceError Instance :=
  match i.checkStateForAddingFile with
  | .error e => .error e
  | .ok _ =>
  match validateFileArgs src dest chown with
  | .error e => .error e
  | .ok _ =>
  if !fenv.srcExists then .error (.srcDoesNotExist src)
  else
    let dstPath := i.getBuildDir ++ dest
    if !fenv.mkdirOk then .error .creatingDirectory
    else if !fenv.createOk then .error (.failedToCreateDestFile dstPath)
    else if !fenv.openOk then .error (.failedToOpenSrcFile src)
    else if !fenv.copyOk then .error (.failedToCopyFile src dstPath)
    else
      match i.state with
      | .Preparing =>
        .ok { i with builderFiles := i.builderFiles ++ [(src, dest, chown)] }
      | .Committed =>
        if !(i.isSubFolderOfVolumes dest) then
          .error (.fileIsNotSubFolderOfVolumes dest)
        else if fenv.srcIsDir then
          .error (.srcDoesNotExistOrIsDirectory src)
        else
          let file := NewFile dstPath dest
          match chown.splitOn ":" with
          | [_, grpStr] =>
            match grpStr.toInt? with
            | none => .error .failedToConvertToInt64
            | some group =>
              if i.fsGroup ≠ 0 && i.fsGroup ≠ group then
                .error .allFilesMustHaveSameGroup
              else
                .ok { i with fsGroup := group, files := i.files ++ [file] }
          | _ => .error .invalidFormat
      | _ => .ok i

/-- The process-wide image cache of the source (`imageCache`,
`map[string]string` from content hash to image name), threaded explicitly
as an association list; the newest binding is looked up first, matching
Go map assignment. -/
abbrev ImageCache := List (String × String)

/-- `checkImageHashInCache` of the source. -/
def checkImageHashInCache (cache : ImageCache) (imageHash : String) :
    Option String :=
  match cache with
  | [] => none
  | (h, n) :: rest =>
    if h = imageHash then some n else checkImageHashInCache rest imageHash

/-- `updateImageCacheWithHash` of the source. -/
def updateImageCacheWithHash (cache : ImageCache)
    (imageHash imageName : String) : ImageCache :=
  (imageHash, imageName) :: cache

/-- Behavior of the external image builder (`builderFactory`) and registry
during one `Commit`: whether the build context changed, the generated
registry name, the computed content hash, whether the push succeeds, and
the base-image-derived name used when nothing changed. -/
structure CommitEnv where
  changed : Bool
  registryName : Except Unit String
  contentHash : Except Unit String
  pushOk : Bool
  imageNameFrom : String
deriving Repr

/-- `Commit` of the source. Returns the committed instance, the updated
image cache and the number of pushes performed (0 or 1). -/
def Instance.Commit (i : Instance) (benv : CommitEnv) (cache : ImageCache) :
    Except InstanceError (Instance × ImageCache × Nat) :=
  if !(i.IsInState [.Preparing]) then
    .error (.stateViolation .committing i.state)
  else if benv.changed then
    match benv.registryName with
    | .error _ => .error .gettingImageRegistry
    | .ok imageName =>
      match benv.contentHash with
      | .error _ => .error .generatingImageHash
      | .ok imageHash =>
        match checkImageHashInCache cache imageHash with
        | some cachedName =>
          .ok ({ i with imageName := cachedName, state := .Committed },
               cache, 0)
        | none =>
          if !benv.pushOk then .error (.named .pushingImage i.name)
          else
            .ok ({ i with imageName := imageName, state := .Committed },
                 updateImageCacheWithHash cache imageHash imageName, 1)
  else
    .ok ({ i with imageName := benv.imageNameFrom, state := .Committed },
         cache, 0)

/-- The heap of live instances: Go pointers become ids into this map.
Operations that follow `*Instance` pointers (sidecar attachment, lifecycle
propagation) are World transformers. -/
structure World where
  insts : InstanceId → Instance

/-- Dereference an instance pointer. -/
def World.get (w : World) (iid : InstanceId) : Instance :=
  w.insts iid

/-- Write through an instance pointer. -/
def World.set (w : World) (iid : InstanceId) (v : Instance) : World :=
  ⟨fun j => if j = iid then v else w.insts j⟩

theorem World.get_set_same (w : World) (iid : InstanceId) (v : Instance) :
    (w.set iid v).get iid = v := by
  simp [World.get, World.set]

theorem World.get_set_other (w : World) (iid j : InstanceId) (v : Instance)
    (h : j ≠ iid) : (w.set iid v).get j = w.get j := by
  simp [World.get, World.set, h]

/-- `AddSidecar` of the source: the parent's state gate, then the five
candidate checks in source order (nil, self, not-Committed, parent already
a sidecar, candidate already a sidecar); on success the candidate is
appended to the parent's sidecar sequence and its flag and back-reference
are set. The `Option` argument models the Go nil pointer. -/
def World.AddSidecar (w : World) (iid : InstanceId)
    (sidecar : Option InstanceId) : Except InstanceError World :=
  let i := w.get iid
  if !(i.IsInState [.Preparing, .Committed]) then
    .error (.stateViolation .addingSidecar i.state)
  else
    match sidecar with
    | none => .error .sidecarIsNil
    | some sid =>
      if sid = iid then .error .sidecarCannotBeSameInstance
      else
        let s := w.get sid
        if s.state ≠ .Committed then
          .error (.named .sidecarNotCommitted s.name)
        else if i.isSidecar then
          .error (.named .sidecarCannotHaveSidecar i.name)
        else if s.isSidecar then
          .error (.named .sidecarAlreadySidecar s.name)
        else
          let w1 := w.set iid { i with sidecars := i.sidecars ++ [sid] }
          let w2 := w1.set sid
            { s with isSidecar := true, parentInstance := some iid }
          .ok w2

/-- Modelled from the spec: `setStateForSidecars` (helper outside src/)
sets the state of every sidecar in the list — "Flip state to Started for
parent and all sidecars synchronously", and symmetrically for Stop. -/
def setStateForSidecars (w : World) (sidecars : List InstanceId)
    (s : InstanceState) : World :=
  sidecars.foldl (fun acc sid => acc.set sid { acc.get sid with state := s }) w

theorem setStateForSidecars_get_state (l : List InstanceId) :
    ∀ (w : World) (s : InstanceState) (j : InstanceId),
    ((setStateForSidecars w l s).get j).state
      = if j ∈ l then s else (w.get j).state := by
  induction l with
  | nil => intro w s j; simp [setStateForSidecars]
  | cons a t ih =>
    intro w s j
    have hstep : setStateForSidecars w (a :: t) s
        = setStateForSidecars (w.set a { w.get a with state := s }) t s := by
      simp [setStateForSidecars]
    rw [hstep, ih]
    by_cases hjt : j ∈ t
    · simp [hjt]
    · by_cases hja : j = a
      · subst hja
        simp [hjt, World.get_set_same]
      · simp [hjt, hja, World.get_set_other _ _ _ _ hja]

/-- Modelled from the spec: the state pre-check that `StartWithoutWait`
runs over all sidecars via `applyFunctionToInstances` (helper outside
src/) before any mutation; returns the first sidecar whose state is not
in {Committed, Stopped}. -/
def firstBadSidecar (w : World) (sidecars : List InstanceId) :
    Option InstanceId :=
  sidecars.find? (fun sid => !((w.get sid).IsInState [.Committed, .Stopped]))

/-- Modelled from the spec: `isObservabilityEnabled` (helper outside src/)
reports whether any observability endpoint/exporter has been configured. -/
def Instance.isObservabilityEnabled (i : Instance) : Bool :=
  i.obsyConfig.otlpPort ≠ 0 ||
  i.obsyConfig.prometheusEndpointPort ≠ 0 ||
  i.obsyConfig.jaegerGrpcPort ≠ 0 ||
  i.obsyConfig.otlpEndpoint ≠ "" ||
  i.obsyConfig.jaegerEndpoint ≠ "" ||
  i.obsyConfig.prometheusExporterEndpoint ≠ "" ||
  i.obsyConfig.prometheusRemoteWriteExporterEndpoint ≠ ""

/-- Modelled from the spec: the automatic sidecar synthesis of the
deployment orchestrator ("synthesize and attach the corresponding sidecar
automatically ... before deployment", helpers `addOtelCollectorSidecar` /
`addBitTwisterSidecar` outside src/): a fresh Committed instance is
created at the given id and appended to the parent's sidecar sequence. -/
def World.attachGeneratedSidecar (w : World) (iid fresh : InstanceId)
    (name : String) : World :=
  let i := w.get iid
  let side : Instance :=
    { defaultInstance name name with
      state := .Committed, isSidecar := true, parentInstance := some iid }
  (w.set fresh side).set iid { i with sidecars := i.sidecars ++ [fresh] }

/-- Outcomes of the external calls made during `StartWithoutWait`:
sidecar synthesis, per-instance resource deployment, pod deployment, plus
the fresh heap ids for the synthesized sidecars. -/
structure StartEnv where
  otelOk : Bool
  btSidecarOk : Bool
  freshOtelId : InstanceId
  freshBtId : InstanceId
  deployResourcesOk : InstanceId → Bool
  deployPodOk : Bool

/-- The Committed-only phase of `StartWithoutWait` in the source:
observability/fault sidecar auto-injection, then `deployResources` for the
parent and (via `applyFunctionToInstances`) for every sidecar. -/
def World.startCommittedPhase (w : World) (env : StartEnv)
    (iid : InstanceId) : World × Option InstanceError :=
  let i := w.get iid
  if i.isObservabilityEnabled && !env.otelOk then
    (w, some (.named .addingOtelCollectorSidecar i.k8sName))
  else
    let w1 := if i.isObservabilityEnabled then
        w.attachGeneratedSidecar iid env.freshOtelId "otel-collector"
      else w
    if i.btEnabled && !env.btSidecarOk then
      (w1, some (.named .addingNetworkSidecar i.k8sName))
    else
      let w2 := if i.btEnabled then
          w1.attachGeneratedSidecar iid env.freshBtId "bit-twister"
        else w1
      if !(env.deployResourcesOk iid) then
        (w2, some (.named .deployingResourcesForInstance i.k8sName))
      else
        match (w2.get iid).sidecars.find?
            (fun sid => !(env.deployResourcesOk sid)) with
        | some _ => (w2, some (.named .deployingResourcesForSidecars i.k8sName))
        | none => (w2, none)

/-- `StartWithoutWait` of the source: state gate on the parent, the
all-sidecar state pre-check, the direct-start rejection for sidecars, the
Committed-only deployment phase, `deployPod`, then the synchronous state
flip of parent and all (including injected) sidecars. Errors return the
heap as mutated so far (Go has no rollback). -/
def World.StartWithoutWait (w : World) (env : StartEnv) (iid : InstanceId) :
    World × Option InstanceError :=
  let i := w.get iid
  if !(i.IsInState [.Committed, .Stopped]) then
    (w, some (.stateViolation .starting i.state))
  else
    match firstBadSidecar w i.sidecars with
    | some sid =>
      (w, some (.startingNotAllowedForSidecar (w.get sid).name
                 (w.get sid).state))
    | none =>
      if i.isSidecar then (w, some .startingSidecarNotAllowed)
      else
        let phase := if i.state = .Committed then
            w.startCommittedPhase env iid
          else (w, none)
        match phase with
        | (w2, some e) => (w2, some e)
        | (w2, none) =>
          if !env.deployPodOk then
            (w2, some (.named .deployingPodForInstance i.k8sName))
          else
            let w3 := w2.set iid { w2.get iid with state := .Started }
            (setStateForSidecars w3 (w2.get iid).sidecars .Started, none)

/-- `IsRunning` of the source: legal in Started and Stopped, then asks the
cluster whether the replica set has a running replica (oracle). -/
def Instance.IsRunning (i : Instance) (replica : Except Unit Bool) :
    Except InstanceError Bool :=
  if !(i.IsInState [.Started, .Stopped]) then
    .error (.stateViolation .checkingIfInstanceRunning i.state)
  else
    match replica with
    | .error _ => .error (.named .clusterQueryFailed i.k8sName)
    | .ok b => .ok b

/-- Tick period of the running-wait in the source (`1 * time.Second`). -/
def waitTickSeconds : Nat := 1

/-- Number of ticks before the 1-minute timeout of the running-wait fires
(`time.After(1 * time.Minute)` against a 1-second ticker). -/
def waitTimeoutTicks : Nat := 60

/-- The polling loop of `WaitInstanceIsRunning`: on each tick query
readiness via `IsRunning`; a query error returns immediately, readiness
returns success, and exhausting the ticks is the 1-minute timeout. -/
def runningWaitLoop (i : Instance) (poll : Nat → Except Unit Bool) :
    Nat → Nat → Except InstanceError Unit
  | _, 0 => .error (.named .waitingForInstanceTimeout i.k8sName)
  | t, fuel + 1 =>
    match i.IsRunning (poll t) with
    | .error _ => .error (.named .checkingIfInstanceRunningFailed i.k8sName)
    | .ok true => .ok ()
    | .ok false => runningWaitLoop i poll (t + 1) fuel

/-- `WaitInstanceIsRunning` of the source: requires Started, then polls
once per second up to the 1-minute deadline. `poll t` is the cluster's
answer to the readiness query at tick `t`. -/
def Instance.WaitInstanceIsRunning (i : Instance)
    (poll : Nat → Except Unit Bool) : Except InstanceError Unit :=
  if !(i.IsInState [.Started]) then
    .error (.stateViolation .waitingForInstance i.state)
  else runningWaitLoop i poll 1 waitTimeoutTicks

/-- `Start` of the source: `StartWithoutWait`, then the running-wait, whose
failure is wrapped as `ErrWaitingForInstanceRunning`. -/
def World.Start (w : World) (env : StartEnv)
    (poll : Nat → Except Unit Bool) (iid : InstanceId) :
    World × Option InstanceError :=
  match w.StartWithoutWait env iid with
  | (w1, some e) => (w1, some e)
  | (w1, none) =>
    match (w1.get iid).WaitInstanceIsRunning poll with
    | .error _ =>
      (w1, some (.named .waitingForInstanceRunning (w.get iid).k8sName))
    | .ok _ => (w1, none)

/-- `Stop` of the source: requires Started (no sidecar check!), destroys
the pod, then flips parent and sidecars to Stopped. -/
def World.Stop (w : World) (destroyPodOk : Bool) (iid : InstanceId) :
    World × Option InstanceError :=
  let i := w.get iid
  if !(i.IsInState [.Started]) then
    (w, some (.stateViolation .stopping i.state))
  else if !destroyPodOk then
    (w, some (.named .destroyingPod i.k8sName))
  else
    let w1 := w.set iid { i with state := .Stopped }
    (setStateForSidecars w1 i.sidecars .Stopped, none)

/-- `maxRetries` of the source. -/
def maxRetries : Nat := 5

/-- `retryInterval` of the source, in seconds (`5 * time.Second`). -/
def retryIntervalSeconds : Nat := 5

/-- Outcomes of the external calls made by `PortForwardTCP`: the free
local port probe, the first-pod lookup, and the tunnel attempt at each
retry index. -/
structure ForwardEnv where
  freePort : Except Unit Int
  firstPod : Except Unit String
  attemptOk : Nat → Bool

/-- The retry loop of `PortForwardTCP` in the source: attempts are
numbered from 1; a failure on attempt `maxRetries` returns the error
naming the retry count, any earlier failure sleeps `retryInterval` and
retries. Returns the result together with the total seconds slept. -/
def portForwardLoop (ok : Nat → Bool) (localPort : Int) :
    Nat → Nat → Except InstanceError Int × Nat
  | _, 0 => (.ok localPort, 0)
  | attempt, fuel + 1 =>
    if ok attempt then (.ok localPort, 0)
    else if attempt = maxRetries then
      (.error (.forwardingPort maxRetries), 0)
    else
      let r := portForwardLoop ok localPort (attempt + 1) fuel
      (r.1, r.2 + retryIntervalSeconds)

/-- `PortForwardTCP` of the source: requires Started, a valid and
registered port, a free local port and the first backing pod, then the
bounded retry loop. Returns the result with the total seconds slept. -/
def Instance.PortForwardTCP (i : Instance) (fenv : ForwardEnv)
    (port : Int) : Except InstanceError Int × Nat :=
  if !(i.IsInState [.Started]) then
    (.error (.stateViolation .randomPortForwarding i.state), 0)
  else
    match validatePort port with
    | .error e => (.error e, 0)
    | .ok _ =>
      if !(i.isTCPPortRegistered port) then
        (.error (.portNotRegistered port), 0)
      else
        match fenv.freePort with
        | .error _ => (.error (.gettingFreePort port), 0)
        | .ok localPort =>
          match fenv.firstPod with
          | .error _ =>
            (.error (.named .gettingPodFromReplicaSet i.k8sName), 0)
          | .ok _ => portForwardLoop fenv.attemptOk localPort 1 maxRetries

/-- Modelled from the spec: the Fault Injection Client external interface
("start/stop bandwidth, latency+jitter, packet-loss on a named
interface"). Which of the three shaping services are currently started. -/
structure BTState where
  bandwidthActive : Bool
  latencyActive : Bool
  packetlossActive : Bool
deriving DecidableEq, Repr

/-- The sdk calls a shaping setter can issue, recorded as a trace. -/
inductive BTCall
  | bandwidthStop
  | bandwidthStart
  | latencyStop
  | latencyStart
  | packetlossStop
  | packetlossStart
deriving DecidableEq, Repr

/-- Result of an sdk stop call; the source distinguishes the three
tolerated conditions (`IsErrorServiceNotInitialized` / `NotReady` /
`NotStarted`) from any other failure. -/
inductive BTStopOutcome
  | stopped
  | notInitialized
  | notReady
  | notStarted
  | failed
deriving DecidableEq, Repr

/-- Outcomes of the sdk calls during one shaping setter invocation. -/
structure BTEnv where
  bandwidthStopOutcome : BTStopOutcome
  latencyStopOutcome : BTStopOutcome
  packetlossStopOutcome : BTStopOutcome
  bandwidthStartOk : Bool
  latencyStartOk : Bool
  packetlossStartOk : Bool
deriving DecidableEq, Repr

/-- `SetBandwidthLimit` of the source: requires Started and fault
injection enabled; stops the bandwidth service (tolerating the three
"not initialized/ready/started" conditions, aborting on any other stop
failure), then starts it with the new limit. Returns the new client
state and the trace of sdk calls issued. -/
def Instance.SetBandwidthLimit (i : Instance) (bt : BTState) (benv : BTEnv)
    (_limit : Int) : Except InstanceError BTState × List BTCall :=
  if !(i.IsInState [.Started]) then
    (.error (.stateViolation .settingBandwidthLimit i.state), [])
  else if !i.btEnabled then
    (.error .settingBandwidthLimitNotAllowedBitTwister, [])
  else
    match benv.bandwidthStopOutcome with
    | .failed =>
      (.error (.named .stoppingBandwidthLimit i.k8sName), [.bandwidthStop])
    | outcome =>
      let bt1 := if outcome = .stopped then
          { bt with bandwidthActive := false }
        else bt
      if !benv.bandwidthStartOk then
        (.error (.named .settingBandwidthLimitFailed i.k8sName),
         [.bandwidthStop, .bandwidthStart])
      else
        (.ok { bt1 with bandwidthActive := true },
         [.bandwidthStop, .bandwidthStart])

/-- `SetLatencyAndJitter` of the source; note it stops only the latency
service, never the bandwidth or packet-loss one. -/
def Instance.SetLatencyAndJitter (i : Instance) (bt : BTState) (benv : BTEnv)
    (_latency _jitter : Int) : Except InstanceError BTState × List BTCall :=
  if !(i.IsInState [.Started]) then
    (.error (.stateViolation .settingLatencyJitter i.state), [])
  else if !i.btEnabled then
    (.error .settingLatencyJitterNotAllowedBitTwister, [])
  else
    match benv.latencyStopOutcome with
    | .failed =>
      (.error (.named .stoppingLatencyJitter i.k8sName), [.latencyStop])
    | outcome =>
      let bt1 := if outcome = .stopped then
          { bt with latencyActive := false }
        else bt
      if !benv.latencyStartOk then
        (.error (.named .settingLatencyJitterFailed i.k8sName),
         [.latencyStop, .latencyStart])
      else
        (.ok { bt1 with latencyActive := true },
         [.latencyStop, .latencyStart])

/-- `SetPacketLoss` of the source. -/
def Instance.SetPacketLoss (i : Instance) (bt : BTState) (benv : BTEnv)
    (_packetLoss : Int) : Except InstanceError BTState × List BTCall :=
  if !(i.IsInState [.Started]) then
    (.error (.stateViolation .settingPacketLoss i.state), [])
  else if !i.btEnabled then
    (.error .settingPacketLossNotAllowedBitTwister, [])
  else
    match benv.packetlossStopOutcome with
    | .failed =>
      (.error (.named .stoppingPacketLoss i.k8sName), [.packetlossStop])
    | outcome =>
      let bt1 := if outcome = .stopped then
          { bt with packetlossActive := false }
        else bt
      if !benv.packetlossStartOk then
        (.error (.named .settingPacketLossFailed i.k8sName),
         [.packetlossStop, .packetlossStart])
      else
        (.ok { bt1 with packetlossActive := true },
         [.packetlossStop, .packetlossStart])

/-- Outcomes of the external calls made by `ExecuteCommand`: execution in
the build context (Preparing) or pod lookup plus in-pod execution
(Started). -/
structure ExecEnv where
  builderExec : Except Unit String
  firstPod : Except Unit String
  podExec : Except Unit String

/-- `ExecuteCommand` of the source: legal in Preparing (routed to the
builder) and Started (routed to the first pod of the replica set; a
sidecar executes in its parent's pod and reports a sidecar-specific
error). -/
def Instance.ExecuteCommand (i : Instance) (eenv : ExecEnv)
    (_command : List String) : Except InstanceError String :=
  if !(i.IsInState [.Preparing, .Started]) then
    .error (.stateViolation .executingCommand i.state)
  else if i.IsInState [.Preparing] then
    match eenv.builderExec with
    | .error _ => .error (.named .executingCommandInInstance i.name)
    | .ok out => .ok out
  else
    match eenv.firstPod with
    | .error _ => .error (.named .gettingPodFromReplicaSet i.k8sName)
    | .ok _ =>
      match eenv.podExec with
      | .error _ =>
        if i.isSidecar then
          .error (.named .executingCommandInSidecar i.k8sName)
        else .error (.named .executingCommandInInstance i.k8sName)
      | .ok out => .ok out

/-- `ReadFileFromRunningInstance` of the source: requires Started, then
reads the file by executing `cat` in the running container. -/
def Instance.ReadFileFromRunningInstance (i : Instance) (eenv : ExecEnv)
    (filePath : String) : Except InstanceError String :=
  if !(i.IsInState [.Started]) then
    .error (.stateViolation .readingFile i.state)
  else
    match i.ExecuteCommand eenv ["cat", filePath] with
    | .error _ =>
      .error (.named2 .readingFileFromInstance filePath i.name)
    | .ok out => .ok out

/-- Outcomes of the external reads available to `GetFileBytes`: the build
context read (builder) and the in-cluster read. -/
structure FileReadEnv where
  builderRead : Except Unit String
  exec : ExecEnv

/-- `GetFileBytes` of the source: legal in Preparing, Committed and
Started; outside Started it reads the file from the build context via the
builder, in Started it reads from the running instance. -/
def Instance.GetFileBytes (i : Instance) (renv : FileReadEnv)
    (file : String) : Except InstanceError String :=
  if !(i.IsInState [.Preparing, .Committed, .Started]) then
    .error (.stateViolation .gettingFile i.state)
  else if i.state ≠ .Started then
    match renv.builderRead with
    | .error _ => .error (.named2 .gettingFileFailed file i.name)
    | .ok bytes => .ok bytes
  else
    match i.ReadFileFromRunningInstance renv.exec file with
    | .error _ => .error (.named2 .readingFileFailed file i.name)
    | .ok out => .ok out

/-!  Theorems about the claims.  -/

/-- Claim C1, counterexample: `AddVolume` invoked in state `None` (outside
{Preparing, Committed}) does NOT fail with a state-violation error — it
returns success and leaves the instance unchanged, because the source
discards the error returned by `AddVolumeWithOwner`. This falsifies the
claim that every volume mutator invoked outside {Preparing, Committed}
fails with a state-violation error. -/
theorem addVolume_swallows_state_violation :
    (defaultInstance "web" "web-1").AddVolume "/data" "1Gi"
      = .ok (defaultInstance "web" "web-1")
    ∧ (defaultInstance "web" "web-1").state = .None
    ∧ ((defaultInstance "web" "web-1").IsInState [.Preparing, .Committed])
      = false := by
  refine ⟨rfl, rfl, rfl⟩

/-- Claim C1 (amended): every descriptor mutator except `AddVolume` and
the BitTwister toggles, invoked in a state outside {Preparing, Committed},
fails with a state-violation error naming the operation and the current
state and leaves the descriptor unmutated; `AddVolume` instead swallows
the inner state-violation error and returns success without mutating
(when no volume exists yet) or the maximum-volumes error (otherwise);
`EnableBitTwister` is rejected only in Started and succeeds in every
other state. -/
theorem mutator_state_gate (i : Instance) (fenv : FileEnv)
    (port : Int) (key value src dest chown path size req lim cpu cap : String)
    (owner : Int) (pr : Probe) (rule : PolicyRule)
    (cmd args2 caps : List String)
    (h : i.IsInState [.Preparing, .Committed] = false) :
    i.SetCommand cmd = .error (.stateViolation .settingCommand i.state) ∧
    i.SetArgs args2 = .error (.stateViolation .settingArgs i.state) ∧
    i.AddPortTCP port = .error (.stateViolation .addingPort i.state) ∧
    i.AddPortUDP port = .error (.stateViolation .addingPort i.state) ∧
    i.SetEnvironmentVariable key value
      = .error (.stateViolation .settingEnv i.state) ∧
    i.AddVolumeWithOwner path size owner
      = .error (.stateViolation .addingVolume i.state) ∧
    (i.volumes = [] → i.AddVolume path size = .ok i) ∧
    (i.volumes ≠ [] → i.AddVolume path size
      = .error (.named .maximumVolumesExceeded i.name)) ∧
    i.AddFile fenv src dest chown
      = .error (.stateViolation .addingFile i.state) ∧
    i.SetLivenessProbe pr = .error (.stateViolation .settingProbe i.state) ∧
    i.SetReadinessProbe pr = .error (.stateViolation .settingProbe i.state) ∧
    i.SetStartupProbe pr = .error (.stateViolation .settingProbe i.state) ∧
    i.SetMemory req lim = .error (.stateViolation .settingMemory i.state) ∧
    i.SetCPU cpu = .error (.stateViolation .settingCPU i.state) ∧
    i.SetPrivileged true
      = .error (.stateViolation .settingPrivileged i.state) ∧
    i.AddCapability cap
      = .error (.stateViolation .addingCapability i.state) ∧
    i.AddCapabilities caps
      = .error (.stateViolation .addingCapabilities i.state) ∧
    i.AddPolicyRule rule
      = .error (.stateViolation .addingPolicyRule i.state) ∧
    i.SetOtelEndpoint port
      = .error (.obsyNotAllowed "OpenTelemetry endpoint" i.state) ∧
    i.SetPrometheusEndpoint port key value
      = .error (.obsyNotAllowed "Prometheus endpoint" i.state) ∧
    (i.state = .Started → i.EnableBitTwister = .error .enablingBitTwister) ∧
    (i.state ≠ .Started →
      i.EnableBitTwister = .ok { i with btEnabled := true }) := by
  refine ⟨?_, ?_, ?_, ?_, ?_, ?_, ?_, ?_, ?_, ?_, ?_, ?_, ?_, ?_, ?_, ?_,
    ?_, ?_, ?_, ?_, ?_, ?_⟩
  · simp [Instance.SetCommand, h]
  · simp [Instance.SetArgs, h]
  · simp [Instance.AddPortTCP, h]
  · simp [Instance.AddPortUDP, h]
  · simp [Instance.SetEnvironmentVariable, h]
  · simp [Instance.AddVolumeWithOwner, h]
  · intro hv
    simp [Instance.AddVolume, Instance.AddVolumeWithOwner, h, hv]
  · intro hv
    simp [Instance.AddVolume, List.length_pos.mpr hv]
  · simp [Instance.AddFile, Instance.checkStateForAddingFile, h]
  · simp [Instance.SetLivenessProbe, Instance.checkStateForProbe, h]
  · simp [Instance.SetReadinessProbe, Instance.checkStateForProbe, h]
  · simp [Instance.SetStartupProbe, Instance.checkStateForProbe, h]
  · simp [Instance.SetMemory, h]
  · simp [Instance.SetCPU, h]
  · simp [Instance.SetPrivileged, h]
  · simp [Instance.AddCapability, h]
  · simp [Instance.AddCapabilities, h]
  · simp [Instance.AddPolicyRule, h]
  · simp [Instance.SetOtelEndpoint, Instance.validateStateForObsy, h]
  · simp [Instance.SetPrometheusEndpoint, Instance.validateStateForObsy, h]
  · intro hs
    simp [Instance.EnableBitTwister, Instance.IsInState, hs]
  · intro hs
    simp [Instance.EnableBitTwister, Instance.IsInState, hs]

/-- Claim C1 witness: the amended theorem applied to a freshly created
instance (state `None`). -/
theorem mutator_state_gate_witness :
    (defaultInstance "web" "w").SetCommand ["echo"]
      = .error (.stateViolation .settingCommand .None) :=
  (mutator_state_gate (defaultInstance "web" "w")
    ⟨true, false, true, true, true, true⟩ 80 "k" "v" "s" "d" "0:0" "/p"
    "1Gi" "r" "l" "c" "cap" 0 0 0 ["echo"] ["a"] ["x"] (by decide)).1

/-- Claim C9, counterexample: an instance in state `Started` holding one
volume; `AddVolumeWithOwner` fails, but with the state-violation error,
not with the maximum-volumes-exceeded error the claim promises for every
call with a non-empty volume list. -/
theorem addVolumeWithOwner_started_state_error :
    ({ defaultInstance "db" "db-1" with
        state := .Started,
        volumes := [NewVolume "/data" "1Gi" 0] } : Instance).AddVolumeWithOwner
        "/other" "1Gi" 0
      = .error (.stateViolation .addingVolume .Started) := by
  rfl

/-- Claim C9 (amended): with a non-empty volume list, `AddVolume` always
fails with the maximum-volumes-exceeded error, and `AddVolumeWithOwner`
fails with that error in {Preparing, Committed} and with its
state-violation error elsewhere; in every case the returned error carries
no mutation, and any successful call of either keeps the invariant
length(volumes) ≤ 1. -/
theorem volume_limit (i : Instance) (p s : String) (o : Int) :
    (i.volumes ≠ [] → i.AddVolume p s
      = .error (.named .maximumVolumesExceeded i.name)) ∧
    (i.volumes ≠ [] → i.IsInState [.Preparing, .Committed] = true →
      i.AddVolumeWithOwner p s o
        = .error (.named .maximumVolumesExceeded i.name)) ∧
    (i.volumes ≠ [] → i.IsInState [.Preparing, .Committed] = false →
      i.AddVolumeWithOwner p s o
        = .error (.stateViolation .addingVolume i.state)) ∧
    (∀ i2, i.volumes.length ≤ 1 →
      (i.AddVolume p s = .ok i2 ∨ i.AddVolumeWithOwner p s o = .ok i2) →
      i2.volumes.length ≤ 1) := by
  refine ⟨?_, ?_, ?_, ?_⟩
  · intro hv
    simp [Instance.AddVolume, List.length_pos.mpr hv]
  · intro hv hg
    simp [Instance.AddVolumeWithOwner, hg, List.length_pos.mpr hv]
  · intro hv hg
    simp [Instance.AddVolumeWithOwner, hg]
  · intro i2 hlen hok
    by_cases hv : i.volumes = []
    · by_cases hg : i.IsInState [.Preparing, .Committed] = true
      · rcases hok with hok | hok
        · simp [Instance.AddVolume, Instance.AddVolumeWithOwner, hv, hg]
            at hok
          subst hok
          simp [hv]
        · simp [Instance.AddVolumeWithOwner, hv, hg] at hok
          subst hok
          simp [hv]
      · rw [Bool.not_eq_true] at hg
        rcases hok with hok | hok
        · simp [Instance.AddVolume, Instance.AddVolumeWithOwner, hv, hg]
            at hok
          subst hok
          simp [hv]
        · simp [Instance.AddVolumeWithOwner, hg] at hok
    · rcases hok with hok | hok
      · simp [Instance.AddVolume, List.length_pos.mpr hv] at hok
      · by_cases hg : i.IsInState [.Preparing, .Committed] = true
        · simp [Instance.AddVolumeWithOwner, hg, List.length_pos.mpr hv]
            at hok
        · rw [Bool.not_eq_true] at hg
          simp [Instance.AddVolumeWithOwner, hg] at hok

/-- Claim C9 witness: the amended theorem applied to a Preparing instance
holding one volume. -/
theorem volume_limit_witness :
    ({ defaultInstance "db" "d" with
        state := .Preparing,
        volumes := [NewVolume "/data" "1Gi" 0] } : Instance).AddVolume
        "/other" "1Gi"
      = .error (.named .maximumVolumesExceeded "db") :=
  (volume_limit
    ({ defaultInstance "db" "d" with
        state := .Preparing,
        volumes := [NewVolume "/data" "1Gi" 0] } : Instance)
    "/other" "1Gi" 0).1 (by decide)

theorem checkImageHashInCache_insert (cache : ImageCache) (h n : String) :
    checkImageHashInCache (updateImageCacheWithHash cache h n) h = some n := by
  simp [updateImageCacheWithHash, checkImageHashInCache]

/-- Claim C3: two instances committed sequentially from changed build
contexts with the same content hash receive the same image reference; the
push path runs at most once for that hash (the second commit reuses the
cached mapping); and — fully generally — every successful `Commit` leaves
the instance in state `Committed`. -/
theorem commit_content_cache (i1 i2 : Instance) (e1 e2 : CommitEnv)
    (cache : ImageCache) (hash n1 n2 : String)
    (h1 : i1.state = .Preparing) (h2 : i2.state = .Preparing)
    (hc1 : e1.changed = true) (hc2 : e2.changed = true)
    (hh1 : e1.contentHash = .ok hash) (hh2 : e2.contentHash = .ok hash)
    (hr1 : e1.registryName = .ok n1) (hr2 : e2.registryName = .ok n2)
    (hp1 : e1.pushOk = true) (_hp2 : e2.pushOk = true) :
    (∃ i1r i2r c1 c2 p1 p2,
      i1.Commit e1 cache = .ok (i1r, c1, p1) ∧
      i2.Commit e2 c1 = .ok (i2r, c2, p2) ∧
      i1r.imageName = i2r.imageName ∧
      p1 + p2 ≤ 1 ∧
      i1r.state = .Committed ∧ i2r.state = .Committed) ∧
    (∀ (i : Instance) (e : CommitEnv) (c : ImageCache) r,
      i.Commit e c = .ok r → r.1.state = .Committed) := by
  constructor
  · have hg1 : i1.IsInState [.Preparing] = true := by
      simp [Instance.IsInState, h1]
    have hg2 : i2.IsInState [.Preparing] = true := by
      simp [Instance.IsInState, h2]
    rcases hcc : checkImageHashInCache cache hash with _ | n
    · -- cache miss: the first commit pushes and records hash -> n1,
      -- the second hits the cache and reuses n1
      refine ⟨{ i1 with imageName := n1, state := .Committed },
        { i2 with imageName := n1, state := .Committed },
        updateImageCacheWithHash cache hash n1,
        updateImageCacheWithHash cache hash n1, 1, 0,
        ?_, ?_, rfl, by norm_num, rfl, rfl⟩
      · simp [Instance.Commit, hg1, hc1, hh1, hr1, hp1, hcc]
      · simp [Instance.Commit, hg2, hc2, hh2, hr2,
          checkImageHashInCache_insert]
    · -- cache hit for both
      refine ⟨{ i1 with imageName := n, state := .Committed },
        { i2 with imageName := n, state := .Committed },
        cache, cache, 0, 0, ?_, ?_, rfl, by norm_num, rfl, rfl⟩
      · simp [Instance.Commit, hg1, hc1, hh1, hr1, hcc]
      · simp [Instance.Commit, hg2, hc2, hh2, hr2, hcc]
  · intro i e c r hok
    unfold Instance.Commit at hok
    split at hok
    · simp at hok
    · split at hok
      · split at hok
        · simp at hok
        · split at hok
          · simp at hok
          · split at hok
            · rcases hok with ⟨⟩
              rfl
            · split at hok
              · simp at hok
              · rcases hok with ⟨⟩
                rfl
      · rcases hok with ⟨⟩
        rfl

/-- Claim C3 witness: the theorem applied to two fresh Preparing
instances, identical hash "h1", an empty cache: the first commit
succeeds and produces a Committed instance. -/
theorem commit_content_cache_witness :
    (({ defaultInstance "a" "a1" with state := .Preparing } : Instance).Commit
        ⟨true, .ok "reg/a", .ok "h1", true, "base-a"⟩ []).map
      (fun r => r.1.state) = .ok .Committed := by
  obtain ⟨i1r, i2r, c1, c2, p1, p2, hc1, _, _, _, hs1, _⟩ :=
    (commit_content_cache
      { defaultInstance "a" "a1" with state := .Preparing }
      { defaultInstance "b" "b1" with state := .Preparing }
      ⟨true, .ok "reg/a", .ok "h1", true, "base-a"⟩
      ⟨true, .ok "reg/b", .ok "h1", true, "base-b"⟩
      [] "h1" "reg/a" "reg/b"
      rfl rfl rfl rfl rfl rfl rfl rfl rfl rfl).1
  rw [hc1]
  simp [Except.map, hs1]

/-- Claim C4: `AddSidecar` fails when the parent is outside
{Preparing, Committed}, when the candidate is nil, equal to the parent,
not Committed, when the parent is itself a sidecar, or when the candidate
is already a sidecar (checks in source order); on success the candidate's
sidecar flag and parent back-reference are set, it is appended to the end
of the parent's sidecar sequence, and no other instance changes. -/
theorem addSidecar_spec (w : World) (iid sid : InstanceId) :
    ((w.get iid).IsInState [.Preparing, .Committed] = false →
      ∀ cand, w.AddSidecar iid cand
        = .error (.stateViolation .addingSidecar (w.get iid).state)) ∧
    ((w.get iid).IsInState [.Preparing, .Committed] = true →
      w.AddSidecar iid none = .error .sidecarIsNil) ∧
    ((w.get iid).IsInState [.Preparing, .Committed] = true →
      w.AddSidecar iid (some iid) = .error .sidecarCannotBeSameInstance) ∧
    ((w.get iid).IsInState [.Preparing, .Committed] = true → sid ≠ iid →
      (w.get sid).state ≠ .Committed →
      w.AddSidecar iid (some sid)
        = .error (.named .sidecarNotCommitted (w.get sid).name)) ∧
    ((w.get iid).IsInState [.Preparing, .Committed] = true → sid ≠ iid →
      (w.get sid).state = .Committed → (w.get iid).isSidecar = true →
      w.AddSidecar iid (some sid)
        = .error (.named .sidecarCannotHaveSidecar (w.get iid).name)) ∧
    ((w.get iid).IsInState [.Preparing, .Committed] = true → sid ≠ iid →
      (w.get sid).state = .Committed → (w.get iid).isSidecar = false →
      (w.get sid).isSidecar = true →
      w.AddSidecar iid (some sid)
        = .error (.named .sidecarAlreadySidecar (w.get sid).name)) ∧
    ((w.get iid).IsInState [.Preparing, .Committed] = true → sid ≠ iid →
      (w.get sid).state = .Committed → (w.get iid).isSidecar = false →
      (w.get sid).isSidecar = false →
      ∃ w2, w.AddSidecar iid (some sid) = .ok w2 ∧
        (w2.get sid).isSidecar = true ∧
        (w2.get sid).parentInstance = some iid ∧
        (w2.get iid).sidecars = (w.get iid).sidecars ++ [sid] ∧
        ∀ j, j ≠ iid → j ≠ sid → w2.get j = w.get j) := by
  refine ⟨?_, ?_, ?_, ?_, ?_, ?_, ?_⟩
  · intro hg cand
    simp [World.AddSidecar, hg]
  · intro hg
    simp [World.AddSidecar, hg]
  · intro hg
    simp [World.AddSidecar, hg]
  · intro hg hne hcs
    simp [World.AddSidecar, hg, hne, hcs]
  · intro hg hne hcs hps
    simp [World.AddSidecar, hg, hne, hcs, hps]
  · intro hg hne hcs hps hss
    simp [World.AddSidecar, hg, hne, hcs, hps, hss]
  · intro hg hne hcs hps hss
    refine ⟨(w.set iid { w.get iid with
        sidecars := (w.get iid).sidecars ++ [sid] }).set sid
      { w.get sid with isSidecar := true, parentInstance := some iid },
      ?_, ?_, ?_, ?_, ?_⟩
    · simp [World.AddSidecar, hg, hne, hcs, hps, hss]
    · simp [World.get_set_same]
    · simp [World.get_set_same]
    · rw [World.get_set_other _ _ _ _ (Ne.symm hne), World.get_set_same]
    · intro j hji hjs
      rw [World.get_set_other _ _ _ _ hjs, World.get_set_other _ _ _ _ hji]

/-- Concrete heap for the sidecar-attachment witness: id 0 is a Preparing
parent, id 1 a Committed candidate. -/
def attachWorld : World :=
  ⟨fun j =>
    if j = 0 then { defaultInstance "parent" "parent-1" with
      state := .Preparing }
    else if j = 1 then { defaultInstance "cand" "cand-1" with
      state := .Committed }
    else defaultInstance "other" "other-1"⟩

/-- Claim C4 witness: the theorem applied to `attachWorld`, parent 0,
candidate 1: attachment succeeds and the candidate's sidecar flag is
set. -/
theorem addSidecar_spec_witness :
    (attachWorld.AddSidecar 0 (some 1)).map
      (fun w2 => (w2.get 1).isSidecar) = .ok true := by
  obtain ⟨w2, hok, hflag, _⟩ :=
    (addSidecar_spec attachWorld 0 1).2.2.2.2.2.2
      (by decide) (by decide) (by decide) (by decide) (by decide)
  rw [hok]
  simp [Except.map, hflag]

/-- Concrete heap for the direct-stop counterexample: every id holds a
Started sidecar with no own sidecars. -/
def sidecarWorld : World :=
  ⟨fun _ => { defaultInstance "side" "side-1" with
    state := .Started, isSidecar := true }⟩

/-- Claim C2, counterexample: `Stop` called directly on a Started sidecar
succeeds (no error) and moves it to Stopped — the source has no sidecar
check in `Stop`, so the claim that a sidecar rejects a direct Stop is
false. -/
theorem stop_succeeds_on_sidecar :
    (sidecarWorld.get 0).isSidecar = true ∧
    (sidecarWorld.Stop true 0).2 = none ∧
    ((sidecarWorld.Stop true 0).1.get 0).state = .Stopped := by
  refine ⟨rfl, rfl, rfl⟩

/-- Claim C2 (amended): an instance whose sidecar flag is set always fails
`StartWithoutWait` (and hence `Start`) with its heap untouched, whatever
its state; but `Stop` performs no sidecar check: on a Started sidecar it
succeeds and sets the state to Stopped. -/
theorem sidecar_direct_lifecycle (w : World) (env : StartEnv)
    (poll : Nat → Except Unit Bool) (iid : InstanceId)
    (h : (w.get iid).isSidecar = true) :
    ((w.StartWithoutWait env iid).1 = w ∧
      (w.StartWithoutWait env iid).2.isSome = true) ∧
    ((w.Start env poll iid).1 = w ∧
      (w.Start env poll iid).2.isSome = true) ∧
    ((w.get iid).state = .Started →
      (w.Stop true iid).2 = none ∧
      ((w.Stop true iid).1.get iid).state = .Stopped) := by
  have hsw : (w.StartWithoutWait env iid).1 = w ∧
      (w.StartWithoutWait env iid).2.isSome = true := by
    unfold World.StartWithoutWait
    by_cases hg : (w.get iid).IsInState [.Committed, .Stopped] = true
    · rcases hbad : firstBadSidecar w (w.get iid).sidecars with _ | b
      · simp [hg, hbad, h]
      · simp [hg, hbad]
    · rw [Bool.not_eq_true] at hg
      simp [hg]
  refine ⟨hsw, ?_, ?_⟩
  · unfold World.Start
    rcases hval : w.StartWithoutWait env iid with ⟨w1, e1⟩
    rcases e1 with _ | e
    · exfalso
      have := hsw.2
      rw [hval] at this
      simp at this
    · have hw1 : w1 = w := by
        have := hsw.1
        rw [hval] at this
        exact this
      subst hw1
      simp
  · intro hst
    unfold World.Stop
    have hg : (w.get iid).IsInState [.Started] = true := by
      simp [Instance.IsInState, hst]
    simp only [hg, Bool.not_true, Bool.false_eq_true, if_false,
      Bool.not_false, if_true]
    constructor
    · trivial
    · rw [setStateForSidecars_get_state]
      split
      · rfl
      · rw [World.get_set_same]

/-- Claim C2 witness: the amended theorem applied to `sidecarWorld`. -/
theorem sidecar_direct_lifecycle_witness :
    (sidecarWorld.StartWithoutWait ⟨true, true, 10, 11, fun _ => true, true⟩
      0).2.isSome = true :=
  ((sidecar_direct_lifecycle sidecarWorld
    ⟨true, true, 10, 11, fun _ => true, true⟩
    (fun _ => .ok true) 0 rfl).1).2

theorem attachGeneratedSidecar_sidecars (w : World) (iid fresh : InstanceId)
    (name : String) :
    ((w.attachGeneratedSidecar iid fresh name).get iid).sidecars
      = (w.get iid).sidecars ++ [fresh] := by
  simp [World.attachGeneratedSidecar, World.get_set_same]

theorem startCommittedPhase_ok (w : World) (env : StartEnv)
    (iid : InstanceId) (hotel : env.otelOk = true)
    (hbts : env.btSidecarOk = true)
    (hres : ∀ j, env.deployResourcesOk j = true) :
    (w.startCommittedPhase env iid).2 = none ∧
    ∃ extra, ((w.startCommittedPhase env iid).1.get iid).sidecars
      = (w.get iid).sidecars ++ extra := by
  have hfind : ∀ (l : List InstanceId),
      l.find? (fun sid => !(env.deployResourcesOk sid)) = none := by
    intro l
    apply List.find?_eq_none.mpr
    intro x _
    simp [hres]
  have hfind2 : ∀ (l : List InstanceId),
      l.find? (fun _ => false) = none := by
    intro l
    apply List.find?_eq_none.mpr
    intro x _
    simp
  by_cases hob : (w.get iid).isObservabilityEnabled <;>
    by_cases hbt : (w.get iid).btEnabled
  · refine ⟨?_, [env.freshOtelId, env.freshBtId], ?_⟩
    · simp [World.startCommittedPhase, hotel, hbts, hres, hob, hbt, hfind, hfind2]
    · simp [World.startCommittedPhase, hotel, hbts, hres, hob, hbt, hfind, hfind2,
        attachGeneratedSidecar_sidecars]
  · refine ⟨?_, [env.freshOtelId], ?_⟩
    · simp [World.startCommittedPhase, hotel, hbts, hres, hob, hbt, hfind, hfind2]
    · simp [World.startCommittedPhase, hotel, hbts, hres, hob, hbt, hfind, hfind2,
        attachGeneratedSidecar_sidecars]
  · refine ⟨?_, [env.freshBtId], ?_⟩
    · simp [World.startCommittedPhase, hotel, hbts, hres, hob, hbt, hfind, hfind2]
    · simp [World.startCommittedPhase, hotel, hbts, hres, hob, hbt, hfind, hfind2,
        attachGeneratedSidecar_sidecars]
  · refine ⟨?_, [], ?_⟩
    · simp [World.startCommittedPhase, hotel, hbts, hres, hob, hbt, hfind, hfind2]
    · simp [World.startCommittedPhase, hotel, hbts, hres, hob, hbt, hfind, hfind2]

theorem runningWaitLoop_succ (i : Instance) (poll : Nat → Except Unit Bool)
    (t fuel : Nat) :
    runningWaitLoop i poll t (fuel + 1)
      = match i.IsRunning (poll t) with
        | .error _ =>
          .error (.named .checkingIfInstanceRunningFailed i.k8sName)
        | .ok true => .ok ()
        | .ok false => runningWaitLoop i poll (t + 1) fuel := rfl

/-- Claim C5: lifecycle changes propagate to every sidecar. If the parent
may start but some sidecar fails the {Committed, Stopped} pre-check, the
whole call fails before any state mutation; if the pre-check passes and
all external calls succeed, parent and all (original) sidecars end
Started — also through `Start` when the first readiness poll answers
ready; a successful `Stop` moves parent and all sidecars to Stopped. -/
theorem lifecycle_propagation (w : World) (env : StartEnv)
    (iid : InstanceId) (poll : Nat → Except Unit Bool) :
    ((w.get iid).IsInState [.Committed, .Stopped] = true →
      (∃ b, firstBadSidecar w (w.get iid).sidecars = some b) →
      (w.StartWithoutWait env iid).1 = w ∧
      (w.StartWithoutWait env iid).2.isSome = true) ∧
    ((w.get iid).IsInState [.Committed, .Stopped] = true →
      firstBadSidecar w (w.get iid).sidecars = none →
      (w.get iid).isSidecar = false →
      env.otelOk = true → env.btSidecarOk = true →
      (∀ j, env.deployResourcesOk j = true) → env.deployPodOk = true →
      (w.StartWithoutWait env iid).2 = none ∧
      ((w.StartWithoutWait env iid).1.get iid).state = .Started ∧
      (∀ sid ∈ (w.get iid).sidecars,
        ((w.StartWithoutWait env iid).1.get sid).state = .Started) ∧
      (poll 1 = .ok true →
        (w.Start env poll iid).2 = none ∧
        (w.Start env poll iid).1 = (w.StartWithoutWait env iid).1)) ∧
    ((w.get iid).state = .Started →
      (w.Stop true iid).2 = none ∧
      ((w.Stop true iid).1.get iid).state = .Stopped ∧
      ∀ sid ∈ (w.get iid).sidecars,
        ((w.Stop true iid).1.get sid).state = .Stopped) := by
  refine ⟨?_, ?_, ?_⟩
  · rintro hg ⟨b, hbad⟩
    unfold World.StartWithoutWait
    simp [hg, hbad]
  · intro hg hbad hsc hotel hbts hres hpod
    have hphase : ∃ w2 extra,
        (if (w.get iid).state = .Committed then w.startCommittedPhase env iid
         else (w, none)) = (w2, none) ∧
        (w2.get iid).sidecars = (w.get iid).sidecars ++ extra := by
      by_cases hcm : (w.get iid).state = .Committed
      · obtain ⟨h1, extra, h2⟩ := startCommittedPhase_ok w env iid hotel
          hbts hres
        rcases hph : w.startCommittedPhase env iid with ⟨w2, e2⟩
        rw [hph] at h1 h2
        simp only at h1 h2
        refine ⟨w2, extra, ?_, h2⟩
        rw [if_pos hcm]
        rw [h1]
      · exact ⟨w, [], by simp [hcm], by simp⟩
    obtain ⟨w2, extra, hphe, hw2s⟩ := hphase
    have hres2 : w.StartWithoutWait env iid
        = (setStateForSidecars
            (w2.set iid { w2.get iid with state := .Started })
            ((w2.get iid).sidecars) .Started, none) := by
      unfold World.StartWithoutWait
      simp [hg, hbad, hsc, hphe, hpod]
    rw [hres2]
    have hparent : ((setStateForSidecars
        (w2.set iid { w2.get iid with state := .Started })
        ((w2.get iid).sidecars) .Started).get iid).state = .Started := by
      rw [setStateForSidecars_get_state]
      split
      · rfl
      · rw [World.get_set_same]
    refine ⟨rfl, hparent, ?_, ?_⟩
    · intro sid hsid
      rw [setStateForSidecars_get_state]
      have hmem : sid ∈ (w2.get iid).sidecars := by
        rw [hw2s]
        exact List.mem_append_left _ hsid
      simp [hmem]
    · intro hpoll
      have hwait : ((setStateForSidecars
          (w2.set iid { w2.get iid with state := .Started })
          ((w2.get iid).sidecars) .Started).get iid).WaitInstanceIsRunning
            poll = .ok () := by
        unfold Instance.WaitInstanceIsRunning
        have hgw : ((setStateForSidecars
            (w2.set iid { w2.get iid with state := .Started })
            ((w2.get iid).sidecars) .Started).get iid).IsInState [.Started]
              = true := by
          simp [Instance.IsInState, hparent]
        rw [if_neg (by simp [hgw])]
        have h60 : waitTimeoutTicks = 59 + 1 := rfl
        rw [h60, runningWaitLoop_succ]
        have hrun : ((setStateForSidecars
            (w2.set iid { w2.get iid with state := .Started })
            ((w2.get iid).sidecars) .Started).get iid).IsRunning (poll 1)
              = .ok true := by
          simp [Instance.IsRunning, Instance.IsInState, hparent, hpoll]
        rw [hrun]
      unfold World.Start
      rw [hres2]
      simp [hwait]
  · intro hst
    have hg : (w.get iid).IsInState [.Started] = true := by
      simp [Instance.IsInState, hst]
    have hstop : w.Stop true iid
        = (setStateForSidecars
            (w.set iid { w.get iid with state := .Stopped })
            (w.get iid).sidecars .Stopped, none) := by
      unfold World.Stop
      simp [hg]
    rw [hstop]
    refine ⟨rfl, ?_, ?_⟩
    · rw [setStateForSidecars_get_state]
      split
      · rfl
      · rw [World.get_set_same]
    · intro sid hsid
      rw [setStateForSidecars_get_state]
      simp [hsid]

/-- Concrete heap for the propagation witness: id 0 is a Committed parent
with the single sidecar 1; id 1 (and every other id) is a Committed
sidecar of 0. -/
def propWorld : World :=
  ⟨fun j =>
    if j = 0 then { defaultInstance "p" "p1" with
      state := .Committed, sidecars := [1] }
    else { defaultInstance "s" "s1" with
      state := .Committed, isSidecar := true, parentInstance := some 0 }⟩

/-- Environment for the propagation witness: all external calls succeed. -/
def propEnv : StartEnv := ⟨true, true, 10, 11, fun _ => true, true⟩

/-- Claim C5 witness: the theorem applied to `propWorld`, parent 0. -/
theorem lifecycle_propagation_witness :
    (propWorld.StartWithoutWait propEnv 0).2 = none ∧
    ((propWorld.StartWithoutWait propEnv 0).1.get 0).state = .Started ∧
    ((propWorld.StartWithoutWait propEnv 0).1.get 1).state = .Started := by
  have h := (lifecycle_propagation propWorld propEnv 0
      (fun _ => .ok true)).2.1
    (by decide) (by decide) (by decide) rfl rfl (fun _ => rfl) rfl
  exact ⟨h.1, h.2.1, h.2.2.1 1 (by decide)⟩

/-- Started instance with fault injection enabled, for the shaping
counterexample. -/
def btInstance : Instance :=
  { defaultInstance "net" "net-1" with state := .Started, btEnabled := true }

/-- Shaping environment where every stop reports "service not started"
(tolerated) and every start succeeds. -/
def btEnvAllOk : BTEnv :=
  ⟨.notStarted, .notStarted, .notStarted, true, true, true⟩

/-- Claim C6, counterexample: on a Started, fault-enabled instance with
the bandwidth mode active, `SetLatencyAndJitter` issues only
`latencyStop` and `latencyStart` — it never stops the active bandwidth
mode, so after bandwidth-limit-then-latency BOTH modes are active,
falsifying "each shaping setter first stops the currently active shaping
mode, so that at most one mode is active afterwards". -/
theorem latency_does_not_stop_bandwidth :
    (btInstance.SetBandwidthLimit ⟨false, false, false⟩ btEnvAllOk 1000).1
      = .ok ⟨true, false, false⟩ ∧
    (btInstance.SetLatencyAndJitter ⟨true, false, false⟩ btEnvAllOk 100 10).1
      = .ok ⟨true, true, false⟩ ∧
    (btInstance.SetLatencyAndJitter ⟨true, false, false⟩ btEnvAllOk 100 10).2
      = [.latencyStop, .latencyStart] := by
  refine ⟨rfl, rfl, rfl⟩

/-- Claim C6 (amended): each shaping setter requires Started and fault
injection enabled (otherwise it fails fast with no sdk call); it stops
only ITS OWN mode before restarting it — the other two modes' activity is
never touched; a stop error meaning not-initialized/ready/started is
treated as success; any other stop error aborts the setter before the
start call. -/
theorem shaping_setter_behavior (i : Instance) (bt : BTState) (benv : BTEnv)
    (limit lat jit pl : Int) :
    (i.state ≠ .Started →
      i.SetBandwidthLimit bt benv limit
        = (.error (.stateViolation .settingBandwidthLimit i.state), []) ∧
      i.SetLatencyAndJitter bt benv lat jit
        = (.error (.stateViolation .settingLatencyJitter i.state), []) ∧
      i.SetPacketLoss bt benv pl
        = (.error (.stateViolation .settingPacketLoss i.state), [])) ∧
    (i.state = .Started → i.btEnabled = false →
      i.SetBandwidthLimit bt benv limit
        = (.error .settingBandwidthLimitNotAllowedBitTwister, []) ∧
      i.SetLatencyAndJitter bt benv lat jit
        = (.error .settingLatencyJitterNotAllowedBitTwister, []) ∧
      i.SetPacketLoss bt benv pl
        = (.error .settingPacketLossNotAllowedBitTwister, [])) ∧
    (i.state = .Started → i.btEnabled = true →
      (benv.bandwidthStopOutcome = .failed →
        i.SetBandwidthLimit bt benv limit
          = (.error (.named .stoppingBandwidthLimit i.k8sName),
             [.bandwidthStop])) ∧
      (benv.bandwidthStopOutcome ≠ .failed → benv.bandwidthStartOk = true →
        ∃ bt2, i.SetBandwidthLimit bt benv limit
            = (.ok bt2, [.bandwidthStop, .bandwidthStart]) ∧
          bt2.bandwidthActive = true ∧
          bt2.latencyActive = bt.latencyActive ∧
          bt2.packetlossActive = bt.packetlossActive) ∧
      (benv.latencyStopOutcome = .failed →
        i.SetLatencyAndJitter bt benv lat jit
          = (.error (.named .stoppingLatencyJitter i.k8sName),
             [.latencyStop])) ∧
      (benv.latencyStopOutcome ≠ .failed → benv.latencyStartOk = true →
        ∃ bt2, i.SetLatencyAndJitter bt benv lat jit
            = (.ok bt2, [.latencyStop, .latencyStart]) ∧
          bt2.latencyActive = true ∧
          bt2.bandwidthActive = bt.bandwidthActive ∧
          bt2.packetlossActive = bt.packetlossActive) ∧
      (benv.packetlossStopOutcome = .failed →
        i.SetPacketLoss bt benv pl
          = (.error (.named .stoppingPacketLoss i.k8sName),
             [.packetlossStop])) ∧
      (benv.packetlossStopOutcome ≠ .failed → benv.packetlossStartOk = true →
        ∃ bt2, i.SetPacketLoss bt benv pl
            = (.ok bt2, [.packetlossStop, .packetlossStart]) ∧
          bt2.packetlossActive = true ∧
          bt2.bandwidthActive = bt.bandwidthActive ∧
          bt2.latencyActive = bt.latencyActive)) := by
  refine ⟨?_, ?_, ?_⟩
  · intro hs
    have hg : i.IsInState [.Started] = false := by
      simp [Instance.IsInState, hs]
    refine ⟨?_, ?_, ?_⟩ <;>
      simp [Instance.SetBandwidthLimit, Instance.SetLatencyAndJitter,
        Instance.SetPacketLoss, hg]
  · intro hs hbt
    have hg : i.IsInState [.Started] = true := by
      simp [Instance.IsInState, hs]
    refine ⟨?_, ?_, ?_⟩ <;>
      simp [Instance.SetBandwidthLimit, Instance.SetLatencyAndJitter,
        Instance.SetPacketLoss, hg, hbt]
  · intro hs hbt
    have hg : i.IsInState [.Started] = true := by
      simp [Instance.IsInState, hs]
    refine ⟨?_, ?_, ?_, ?_, ?_, ?_⟩
    · intro hf
      simp [Instance.SetBandwidthLimit, hg, hbt, hf]
    · intro hf hst
      rcases ho : benv.bandwidthStopOutcome with _ | _ | _ | _ | _ <;>
        first
          | exact absurd ho hf
          | exact ⟨{ bt with bandwidthActive := true },
              by simp [Instance.SetBandwidthLimit, hg, hbt, ho, hst],
              rfl, rfl, rfl⟩
    · intro hf
      simp [Instance.SetLatencyAndJitter, hg, hbt, hf]
    · intro hf hst
      rcases ho : benv.latencyStopOutcome with _ | _ | _ | _ | _ <;>
        first
          | exact absurd ho hf
          | exact ⟨{ bt with latencyActive := true },
              by simp [Instance.SetLatencyAndJitter, hg, hbt, ho, hst],
              rfl, rfl, rfl⟩
    · intro hf
      simp [Instance.SetPacketLoss, hg, hbt, hf]
    · intro hf hst
      rcases ho : benv.packetlossStopOutcome with _ | _ | _ | _ | _ <;>
        first
          | exact absurd ho hf
          | exact ⟨{ bt with packetlossActive := true },
              by simp [Instance.SetPacketLoss, hg, hbt, ho, hst],
              rfl, rfl, rfl⟩

/-- Claim C6 witness: the amended theorem applied to `btInstance` with the
all-tolerated environment and an initially bandwidth-active client: the
latency setter succeeds yet leaves the bandwidth mode active. -/
theorem shaping_setter_behavior_witness :
    ((btInstance.SetLatencyAndJitter ⟨true, false, false⟩ btEnvAllOk
        100 10).1.map (fun bt2 => bt2.bandwidthActive)) = .ok true := by
  obtain ⟨bt2, hok, _, hband, _⟩ :=
    ((shaping_setter_behavior btInstance ⟨true, false, false⟩ btEnvAllOk
        1000 100 10 0).2.2 rfl rfl).2.2.2.1 (by decide) rfl
  have h1 : (btInstance.SetLatencyAndJitter ⟨true, false, false⟩ btEnvAllOk
      100 10).1 = .ok bt2 := by
    rw [hok]
  rw [h1]
  simp [Except.map, hband]

theorem portForwardLoop_all_fail (ok : Nat → Bool) (lp : Int) :
    ∀ (fuel attempt : Nat), attempt + fuel = maxRetries + 1 →
    attempt ≤ maxRetries →
    (∀ a, attempt ≤ a → a ≤ maxRetries → ok a = false) →
    portForwardLoop ok lp attempt fuel
      = (.error (.forwardingPort maxRetries),
         (fuel - 1) * retryIntervalSeconds) := by
  have hR : retryIntervalSeconds = 5 := rfl
  have hM : maxRetries = 5 := rfl
  intro fuel
  induction fuel with
  | zero =>
    intro attempt hsum hle _
    omega
  | succ n ih =>
    intro attempt hsum hle hfail
    have hko : ok attempt = false := hfail attempt le_rfl hle
    by_cases hmax : attempt = maxRetries
    · have hn : n = 0 := by omega
      subst hn
      subst hmax
      simp [portForwardLoop, hko]
    · have hrec := ih (attempt + 1) (by omega) (by omega)
        (fun a ha hb => hfail a (by omega) hb)
      simp only [portForwardLoop, hko, Bool.false_eq_true, if_false,
        hmax, hrec]
      rw [Prod.mk.injEq]
      refine ⟨rfl, ?_⟩
      rw [hR]
      omega

theorem portForwardLoop_first_ok (ok : Nat → Bool) (lp : Int) :
    ∀ (fuel attempt k : Nat), attempt ≤ k → k < attempt + fuel →
    k ≤ maxRetries →
    (∀ a, attempt ≤ a → a < k → ok a = false) → ok k = true →
    portForwardLoop ok lp attempt fuel
      = (.ok lp, (k - attempt) * retryIntervalSeconds) := by
  have hR : retryIntervalSeconds = 5 := rfl
  have hM : maxRetries = 5 := rfl
  intro fuel
  induction fuel with
  | zero =>
    intro attempt k h1 h2 _ _ _
    omega
  | succ n ih =>
    intro attempt k h1 h2 hk hfail hok
    by_cases heq : attempt = k
    · subst heq
      simp [portForwardLoop, hok]
    · have hko : ok attempt = false := hfail attempt le_rfl (by omega)
      have hmax : attempt ≠ maxRetries := by omega
      have hrec := ih (attempt + 1) k (by omega) (by omega) hk
        (fun a ha hb => hfail a (by omega) hb) hok
      simp only [portForwardLoop, hko, Bool.false_eq_true, if_false,
        hmax, hrec]
      rw [Prod.mk.injEq]
      refine ⟨rfl, ?_⟩
      rw [hR]
      omega

/-- Claim C7: `PortForwardTCP` fails outside Started, and for an
unregistered (valid) port; otherwise, with a free local port and the
first backing pod available, it retries the tunnel up to `maxRetries` = 5
times with `retryInterval` = 5 seconds between attempts: if all 5 fail it
returns the error naming the attempt count after 4 waits (20s), and if
attempt k ≤ 5 is the first to succeed it returns the allocated local port
after k-1 waits. -/
theorem portForward_retry (i : Instance) (fenv : ForwardEnv)
    (port lp : Int) :
    (i.state ≠ .Started →
      i.PortForwardTCP fenv port
        = (.error (.stateViolation .randomPortForwarding i.state), 0)) ∧
    (i.state = .Started → 1 ≤ port → port ≤ 65535 →
      i.isTCPPortRegistered port = false →
      i.PortForwardTCP fenv port = (.error (.portNotRegistered port), 0)) ∧
    (i.state = .Started → 1 ≤ port → port ≤ 65535 →
      i.isTCPPortRegistered port = true →
      fenv.freePort = .ok lp → (∃ p, fenv.firstPod = .ok p) →
      ((∀ a, 1 ≤ a → a ≤ maxRetries → fenv.attemptOk a = false) →
        i.PortForwardTCP fenv port
          = (.error (.forwardingPort maxRetries),
             (maxRetries - 1) * retryIntervalSeconds)) ∧
      (∀ k, 1 ≤ k → k ≤ maxRetries →
        (∀ a, 1 ≤ a → a < k → fenv.attemptOk a = false) →
        fenv.attemptOk k = true →
        i.PortForwardTCP fenv port
          = (.ok lp, (k - 1) * retryIntervalSeconds))) := by
  refine ⟨?_, ?_, ?_⟩
  · intro hs
    have hg : i.IsInState [.Started] = false := by
      simp [Instance.IsInState, hs]
    simp [Instance.PortForwardTCP, hg]
  · intro hs hp1 hp2 hreg
    have hg : i.IsInState [.Started] = true := by
      simp [Instance.IsInState, hs]
    have hval : validatePort port = .ok () := by
      simp [validatePort]
      omega
    simp [Instance.PortForwardTCP, hg, hval, hreg]
  · rintro hs hp1 hp2 hreg hfp ⟨p, hpod⟩
    have hg : i.IsInState [.Started] = true := by
      simp [Instance.IsInState, hs]
    have hval : validatePort port = .ok () := by
      simp [validatePort]
      omega
    constructor
    · intro hfail
      have hloop := portForwardLoop_all_fail fenv.attemptOk lp maxRetries 1
        (by omega) (by decide) (fun a ha hb => hfail a ha hb)
      simp [Instance.PortForwardTCP, hg, hval, hreg, hfp, hpod, hloop]
    · intro k hk1 hk5 hfail hok
      have hloop := portForwardLoop_first_ok fenv.attemptOk lp maxRetries 1 k
        hk1 (by omega) hk5 (fun a ha hb => hfail a ha hb) hok
      simp [Instance.PortForwardTCP, hg, hval, hreg, hfp, hpod, hloop]

/-- Claim C7 witness: a Started instance with port 80 registered, free
local port 40000, pod available, every attempt failing: the error names
the 5 attempts and 20 seconds were slept. -/
theorem portForward_retry_witness :
    ({ defaultInstance "web" "w1" with
        state := .Started,
        portsTCP := [80] } : Instance).PortForwardTCP
      ⟨.ok 40000, .ok "pod-0", fun _ => false⟩ 80
      = (.error (.forwardingPort maxRetries),
         (maxRetries - 1) * retryIntervalSeconds) :=
  ((portForward_retry
      ({ defaultInstance "web" "w1" with
          state := .Started,
          portsTCP := [80] } : Instance)
      ⟨.ok 40000, .ok "pod-0", fun _ => false⟩
      80 40000).2.2 rfl (by norm_num) (by norm_num) rfl rfl
      ⟨"pod-0", rfl⟩).1 (fun a _ _ => rfl)

theorem runningWaitLoop_all_false (i : Instance)
    (poll : Nat → Except Unit Bool) (hs : i.state = .Started) :
    ∀ (fuel t : Nat), (∀ s, t ≤ s → s < t + fuel → poll s = .ok false) →
    runningWaitLoop i poll t fuel
      = .error (.named .waitingForInstanceTimeout i.k8sName) := by
  have hg : i.IsInState [.Started, .Stopped] = true := by
    simp [Instance.IsInState, hs]
  intro fuel
  induction fuel with
  | zero => intro t _; rfl
  | succ n ih =>
    intro t hall
    rw [runningWaitLoop_succ]
    have hp : poll t = .ok false := hall t le_rfl (by omega)
    have hr : i.IsRunning (poll t) = .ok false := by
      simp [Instance.IsRunning, hg, hp]
    rw [hr]
    exact ih (t + 1) (fun s h1 h2 => hall s (by omega) (by omega))

theorem runningWaitLoop_first_ready (i : Instance)
    (poll : Nat → Except Unit Bool) (hs : i.state = .Started) :
    ∀ (fuel t k : Nat), t ≤ k → k < t + fuel →
    (∀ s, t ≤ s → s < k → poll s = .ok false) → poll k = .ok true →
    runningWaitLoop i poll t fuel = .ok () := by
  have hg : i.IsInState [.Started, .Stopped] = true := by
    simp [Instance.IsInState, hs]
  intro fuel
  induction fuel with
  | zero => intro t k h1 h2 _ _; omega
  | succ n ih =>
    intro t k h1 h2 hfalse hk
    rw [runningWaitLoop_succ]
    by_cases heq : t = k
    · subst heq
      have hr : i.IsRunning (poll t) = .ok true := by
        simp [Instance.IsRunning, hg, hk]
      rw [hr]
    · have hp : poll t = .ok false := hfalse t le_rfl (by omega)
      have hr : i.IsRunning (poll t) = .ok false := by
        simp [Instance.IsRunning, hg, hp]
      rw [hr]
      exact ih (t + 1) k (by omega) (by omega)
        (fun s ha hb => hfalse s (by omega) hb) hk

theorem runningWaitLoop_first_error (i : Instance)
    (poll : Nat → Except Unit Bool) (hs : i.state = .Started) :
    ∀ (fuel t k : Nat), t ≤ k → k < t + fuel →
    (∀ s, t ≤ s → s < k → poll s = .ok false) → poll k = .error () →
    runningWaitLoop i poll t fuel
      = .error (.named .checkingIfInstanceRunningFailed i.k8sName) := by
  have hg : i.IsInState [.Started, .Stopped] = true := by
    simp [Instance.IsInState, hs]
  intro fuel
  induction fuel with
  | zero => intro t k h1 h2 _ _; omega
  | succ n ih =>
    intro t k h1 h2 hfalse hk
    rw [runningWaitLoop_succ]
    by_cases heq : t = k
    · subst heq
      have hr : i.IsRunning (poll t)
          = .error (.named .clusterQueryFailed i.k8sName) := by
        simp [Instance.IsRunning, hg, hk]
      rw [hr]
    · have hp : poll t = .ok false := hfalse t le_rfl (by omega)
      have hr : i.IsRunning (poll t) = .ok false := by
        simp [Instance.IsRunning, hg, hp]
      rw [hr]
      exact ih (t + 1) k (by omega) (by omega)
        (fun s ha hb => hfalse s (by omega) hb) hk

/-- Claim C8: `WaitInstanceIsRunning` requires Started; it polls the
readiness query once per tick (`waitTickSeconds` = 1 s) for at most
`waitTimeoutTicks` = 60 ticks (the 1-minute deadline): if every poll
within the deadline answers not-ready it fails with the timeout error; it
succeeds as soon as some poll answers ready; and a poll that itself
errors fails the wait immediately, with no further retry. -/
theorem wait_running_bounded (i : Instance)
    (poll : Nat → Except Unit Bool) :
    (i.state ≠ .Started →
      i.WaitInstanceIsRunning poll
        = .error (.stateViolation .waitingForInstance i.state)) ∧
    (i.state = .Started →
      ((∀ t, 1 ≤ t → t ≤ waitTimeoutTicks → poll t = .ok false) →
        i.WaitInstanceIsRunning poll
          = .error (.named .waitingForInstanceTimeout i.k8sName)) ∧
      (∀ k, 1 ≤ k → k ≤ waitTimeoutTicks →
        (∀ t, 1 ≤ t → t < k → poll t = .ok false) → poll k = .ok true →
        i.WaitInstanceIsRunning poll = .ok ()) ∧
      (∀ k, 1 ≤ k → k ≤ waitTimeoutTicks →
        (∀ t, 1 ≤ t → t < k → poll t = .ok false) → poll k = .error () →
        i.WaitInstanceIsRunning poll
          = .error (.named .checkingIfInstanceRunningFailed i.k8sName))) ∧
    waitTimeoutTicks * waitTickSeconds = 60 := by
  refine ⟨?_, ?_, rfl⟩
  · intro hs
    have hg : i.IsInState [.Started] = false := by
      simp [Instance.IsInState, hs]
    simp [Instance.WaitInstanceIsRunning, hg]
  · intro hs
    have hg : i.IsInState [.Started] = true := by
      simp [Instance.IsInState, hs]
    have hunfold : i.WaitInstanceIsRunning poll
        = runningWaitLoop i poll 1 waitTimeoutTicks := by
      simp [Instance.WaitInstanceIsRunning, hg]
    refine ⟨?_, ?_, ?_⟩
    · intro hall
      rw [hunfold]
      exact runningWaitLoop_all_false i poll hs waitTimeoutTicks 1
        (fun s h1 h2 => hall s h1 (by omega))
    · intro k hk1 hk2 hfalse hk
      rw [hunfold]
      exact runningWaitLoop_first_ready i poll hs waitTimeoutTicks 1 k hk1
        (by omega) (fun s h1 h2 => hfalse s h1 h2) hk
    · intro k hk1 hk2 hfalse hk
      rw [hunfold]
      exact runningWaitLoop_first_error i poll hs waitTimeoutTicks 1 k hk1
        (by omega) (fun s h1 h2 => hfalse s h1 h2) hk

/-- Claim C8 witness: a Started instance whose readiness never arrives
times out with the timeout error. -/
theorem wait_running_bounded_witness :
    ({ defaultInstance "web" "w2" with
        state := .Started } : Instance).WaitInstanceIsRunning
        (fun _ => .ok false)
      = .error (.named .waitingForInstanceTimeout "w2") :=
  ((wait_running_bounded
      ({ defaultInstance "web" "w2" with state := .Started } : Instance)
      (fun _ => .ok false)).2.1 rfl).1 (fun _ _ _ => rfl)

/-- Claim C10: `GetFileBytes` is accepted in exactly
{Preparing, Committed, Started}: in Preparing and Committed it returns
the builder's read of the file — its result does not depend on the
cluster oracles at all; in None and Stopped it fails with the
state-violation error; only in Started does it read from the running
instance (via `cat` in the pod), and `ReadFileFromRunningInstance`
itself rejects every non-Started state. -/
theorem getFileBytes_routing (i : Instance) (renv renv2 : FileReadEnv)
    (file bytes pod : String) :
    (i.state = .Preparing ∨ i.state = .Committed →
      (renv.builderRead = .ok bytes →
        i.GetFileBytes renv file = .ok bytes) ∧
      (renv.builderRead = renv2.builderRead →
        i.GetFileBytes renv file = i.GetFileBytes renv2 file)) ∧
    (i.state = .None ∨ i.state = .Stopped →
      i.GetFileBytes renv file
        = .error (.stateViolation .gettingFile i.state)) ∧
    (i.state = .Started →
      (renv.exec.firstPod = .ok pod → renv.exec.podExec = .ok bytes →
        i.GetFileBytes renv file = .ok bytes) ∧
      (renv.exec = renv2.exec →
        i.GetFileBytes renv file = i.GetFileBytes renv2 file)) ∧
    (i.state ≠ .Started →
      i.ReadFileFromRunningInstance renv.exec file
        = .error (.stateViolation .readingFile i.state)) := by
  refine ⟨?_, ?_, ?_, ?_⟩
  · intro hs
    have hg : i.IsInState [.Preparing, .Committed, .Started] = true := by
      rcases hs with hs | hs <;> simp [Instance.IsInState, hs]
    have hns : i.state ≠ .Started := by
      rcases hs with hs | hs <;> simp [hs]
    constructor
    · intro hb
      simp [Instance.GetFileBytes, hg, hns, hb]
    · intro hb
      simp [Instance.GetFileBytes, hg, hns, hb]
  · intro hs
    have hg : i.IsInState [.Preparing, .Committed, .Started] = false := by
      rcases hs with hs | hs <;> simp [Instance.IsInState, hs]
    simp [Instance.GetFileBytes, hg]
  · intro hs
    have hg : i.IsInState [.Preparing, .Committed, .Started] = true := by
      simp [Instance.IsInState, hs]
    have hg1 : i.IsInState [.Started] = true := by
      simp [Instance.IsInState, hs]
    have hg2 : i.IsInState [.Preparing, .Started] = true := by
      simp [Instance.IsInState, hs]
    have hg3 : i.IsInState [.Preparing] = false := by
      simp [Instance.IsInState, hs]
    constructor
    · intro hpod hexec
      simp [Instance.GetFileBytes, Instance.ReadFileFromRunningInstance,
        Instance.ExecuteCommand, hg, hg1, hg2, hg3, hs, hpod, hexec]
    · intro hb
      simp [Instance.GetFileBytes, Instance.ReadFileFromRunningInstance,
        Instance.ExecuteCommand, hg, hg1, hg2, hg3, hs, hb]
  · intro hs
    have hg1 : i.IsInState [.Started] = false := by
      simp [Instance.IsInState, hs]
    simp [Instance.ReadFileFromRunningInstance, hg1]

/-- Claim C10 witness: a Committed instance reads the file from the
builder successfully, whatever the cluster oracles would do. -/
theorem getFileBytes_routing_witness :
    ({ defaultInstance "web" "w3" with
        state := .Committed } : Instance).GetFileBytes
        ⟨.ok "contents", ⟨.error (), .error (), .error ()⟩⟩ "/etc/cfg"
      = .ok "contents" :=
  ((getFileBytes_routing
      ({ defaultInstance "web" "w3" with state := .Committed } : Instance)
      ⟨.ok "contents", ⟨.error (), .error (), .error ()⟩⟩
      ⟨.ok "contents", ⟨.error (), .error (), .error ()⟩⟩
      "/etc/cfg" "contents" "pod-0").1 (Or.inr rfl)).1 rfl

end Knuu
